import Mathlib

/-!
Shallow embedding of the NTPC smart-dashboard alert engine
(backend/services/alertService.js, backend/services/twilioService.js,
backend/routes/notifications.js, and the cron scheduler in server.js).

Conventions of the embedding:
* JS numbers are modelled as `ℚ` (all telemetry values in the repository are
  produced by `Math.round` or small decimals; the `1.2` literal is the exact
  rational 6/5 under `OfScientific ℚ`).
* A possibly-`undefined` JS value is an `Option`; the JS comparisons
  `undefined > t` and `undefined < t` are `false`, which `jsGtOpt` / `jsLtOpt`
  encode.  Mongoose hydrates nested parameter objects (the Emission schema
  gives `threshold`/`unit` defaults), so a parameter missing from a stored
  snapshot surfaces as an object whose `value` field is `undefined`.
* A JS exception is an `Except String` value; code that never throws to its
  caller is embedded as a total function into a plain result type, and the
  try/catch structure of the source is made explicit where a claim concerns it.
* Network effects are made explicit: the Twilio client call is modelled by a
  `GatewayResponse` oracle (what the network would answer if called), and each
  send returns the number of outbound network calls it performed.
-/

namespace NTPC

/-- A delivery channel of the engine: SMS or WhatsApp (chat-style messaging). -/
inductive Channel where
  | sms
  | whatsapp
deriving DecidableEq, Repr

/-- JS truthiness of a possibly-absent string (`!user.phone` is true for
`undefined` and for the empty string). -/
def jsTruthyStr : Option String → Bool
  | none => false
  | some s => !(s == "")

/-- JS `x > t` where `x` may be `undefined`: `undefined > t` is `false`. -/
def jsGtOpt : Option ℚ → ℚ → Bool
  | none, _ => false
  | some v, t => v > t

/-- JS `x < t` where `x` may be `undefined`: `undefined < t` is `false`. -/
def jsLtOpt : Option ℚ → ℚ → Bool
  | none, _ => false
  | some v, t => v < t

/-- Channel opt-in flags of a user document (`notifications.sms`,
`notifications.whatsapp`). -/
structure OptIns where
  sms : Bool
  whatsapp : Bool
deriving DecidableEq, Repr

/-- A user document as consumed by the alert pipeline (`_id`, `name`, `phone`,
`notifications`, `isActive`).  `phone` is `Option String` because the
dispatcher itself guards on `!user.phone`. -/
structure User where
  id : Nat
  name : String
  phone : Option String
  notifications : OptIns
  isActive : Bool
deriving DecidableEq, Repr

/-- What the Twilio network would answer for one `client.messages.create` call:
a resolved message (sid, status) or a rejection carrying `error.message`. -/
inductive GatewayResponse where
  | ok (sid status : String)
  | err (msg : String)
deriving DecidableEq, Repr

/-- The value returned by `TwilioService.sendSMS` / `sendWhatsApp`:
`{success, mock?, messageId?, status?, error?}`. -/
structure SendResult where
  success : Bool
  mock : Bool
  messageId : Option String
  status : Option String
  error : Option String
deriving DecidableEq, Repr

/-- The mocked result `{ success: true, mock: true }` used when the Twilio
client is not configured. -/
def mockSendResult : SendResult :=
  { success := true, mock := true, messageId := none, status := none, error := none }

/-- The result of a live send that resolved. -/
def liveSendResult (sid st : String) : SendResult :=
  { success := true, mock := false, messageId := some sid, status := some st, error := none }

/-- The result of a live send whose gateway call rejected
(`{ success: false, error: error.message }`). -/
def failedSendResult (e : String) : SendResult :=
  { success := false, mock := false, messageId := none, status := none, error := some e }

/-- `TwilioService.sendSMS(to, message)`.  `configured` is whether
`TWILIO_SID` and `TWILIO_AUTH_TOKEN` were present (so `this.client` exists);
`resp` is the network oracle for this call.  The second component counts
outbound network calls made.  The try/catch of the source is the `match` on
`resp`: a rejection is converted to a `failedSendResult`, never re-thrown. -/
def sendSMS (configured : Bool) (resp : GatewayResponse) (dest message : String) :
    SendResult × Nat :=
  if !configured then
    (mockSendResult, 0)
  else
    match resp with
    | .ok sid st => (liveSendResult sid st, 1)
    | .err e => (failedSendResult e, 1)

/-- `TwilioService.sendWhatsApp(to, message)`: same control flow as `sendSMS`,
with the destination carried over the WhatsApp channel. -/
def sendWhatsApp (configured : Bool) (resp : GatewayResponse) (dest message : String) :
    SendResult × Nat :=
  if !configured then
    (mockSendResult, 0)
  else
    match resp with
    | .ok sid st => (liveSendResult sid st, 1)
    | .err e => (failedSendResult e, 1)

/-- One entry of the list returned by `TwilioService.sendAlert`
(`{userId, name, phone, type, ...result}`). -/
structure AlertResult where
  userId : Nat
  name : String
  phone : String
  type : Channel
  success : Bool
  mock : Bool
  messageId : Option String
  status : Option String
  error : Option String
deriving DecidableEq, Repr

/-- The negation of `sendAlert`'s skip condition
`!user.phone || (!user.notifications.sms && type === 'sms') ||
(!user.notifications.whatsapp && type === 'whatsapp')`:
a user is attempted exactly when their phone is truthy and they are opted in
to the requested channel. -/
def eligibleFor (ty : Channel) (u : User) : Bool :=
  jsTruthyStr u.phone &&
    (match ty with
     | .sms => u.notifications.sms
     | .whatsapp => u.notifications.whatsapp)

/-- The attempt record `sendAlert` pushes for one non-skipped user.
`world` maps a destination phone number to the network's answer. -/
def alertAttempt (configured : Bool) (world : String → GatewayResponse)
    (message : String) (ty : Channel) (u : User) : AlertResult :=
  let phone := u.phone.getD ""
  let r :=
    match ty with
    | .whatsapp => (sendWhatsApp configured (world phone) phone message).1
    | .sms => (sendSMS configured (world phone) phone message).1
  { userId := u.id, name := u.name, phone := phone, type := ty,
    success := r.success, mock := r.mock, messageId := r.messageId,
    status := r.status, error := r.error }

/-- `TwilioService.sendAlert(users, message, type)`: iterates over `users`,
`continue`s past skipped users, awaits one send per remaining user and collects
the per-user results in order. -/
def sendAlert (configured : Bool) (world : String → GatewayResponse)
    (users : List User) (message : String) (ty : Channel) : List AlertResult :=
  users.filterMap fun u =>
    if eligibleFor ty u then some (alertAttempt configured world message ty u)
    else none

/-- One nested parameter object of an Emission document:
`{value, unit, threshold}`.  `unit` and `threshold` carry schema defaults, so
on a hydrated document only `value` can be `undefined`. -/
structure ParamData where
  value : Option ℚ
  unit : String
  threshold : ℚ
deriving DecidableEq, Repr

/-- One entry of `emission.alerts` as pushed by `checkEmissionThresholds`:
parameter name, the data of the formatted message, and the computed severity
string (`'High'` or `'Medium'`).  The source stores the message as a formatted
string; the embedding keeps its numeric fields. -/
structure EmissionAlert where
  parameter : String
  value : ℚ
  threshold : ℚ
  unit : String
  severity : String
deriving DecidableEq, Repr

/-- The latest Emission snapshot as read by the alert service: the five
parameter objects, the location, and the mutable `alerts` annotation array. -/
structure Emission where
  sox : ParamData
  nox : ParamData
  co2 : ParamData
  pm : ParamData
  co : ParamData
  location : String
  alerts : List EmissionAlert
deriving DecidableEq, Repr

/-- The parameter list iterated by `checkEmissionThresholds`:
`['sox', 'nox', 'co2', 'pm', 'co']`. -/
def emissionParamNames : List String := ["sox", "nox", "co2", "pm", "co"]

/-- The dynamic access `emission[param]` for the five parameter names the loop
uses (any other name is never accessed by the source loop). -/
def Emission.get (e : Emission) : String → ParamData
  | "sox" => e.sox
  | "nox" => e.nox
  | "co2" => e.co2
  | "pm" => e.pm
  | "co" => e.co
  | _ => ⟨none, "", 0⟩

/-- One `sendAlert` batch issued while processing a breaching emission
parameter: which parameter triggered it, over which channel, to which filtered
recipient list, with the per-recipient results. -/
structure EmissionDispatch where
  parameter : String
  channel : Channel
  recipients : List User
  results : List AlertResult
deriving DecidableEq, Repr

/-- One iteration of the `for (const param of parameters)` loop of
`checkEmissionThresholds`: reads `emission[param]`, and when
`data.value > data.threshold` builds the alert message, sends it to the SMS
opt-ins and to the WhatsApp opt-ins (each batch only when its filtered list is
non-empty), and pushes an alert whose severity is
`data.value > data.threshold * 1.2 ? 'High' : 'Medium'`.
Returns `none` when the parameter does not breach (including a missing
`value`, since `undefined > threshold` is `false` in JS). -/
def checkOneEmissionParam (configured : Bool) (world : String → GatewayResponse)
    (users : List User) (e : Emission) (p : String) :
    Option (EmissionAlert × List EmissionDispatch) :=
  let data := e.get p
  match data.value with
  | none => none
  | some v =>
    if v > data.threshold then
      let message := p.toUpper ++ " exceeded threshold"
      let smsUsers := users.filter fun u => u.notifications.sms
      let waUsers := users.filter fun u => u.notifications.whatsapp
      let smsDispatch :=
        if smsUsers.length > 0 then
          [EmissionDispatch.mk p Channel.sms smsUsers
            (sendAlert configured world smsUsers message Channel.sms)]
        else []
      let waDispatch :=
        if waUsers.length > 0 then
          [EmissionDispatch.mk p Channel.whatsapp waUsers
            (sendAlert configured world waUsers message Channel.whatsapp)]
        else []
      some
        ({ parameter := p, value := v, threshold := data.threshold,
           unit := data.unit,
           severity := if v > data.threshold * (1.2 : ℚ) then "High" else "Medium" },
         smsDispatch ++ waDispatch)
    else none

/-- The loop of `checkEmissionThresholds` over a given list of parameter
names: collects the pushed alerts (in loop order) and all dispatch batches. -/
def processEmissionParams (configured : Bool) (world : String → GatewayResponse)
    (users : List User) (e : Emission) :
    List String → List EmissionAlert × List EmissionDispatch
  | [] => ([], [])
  | p :: rest =>
    let tail := processEmissionParams configured world users e rest
    match checkOneEmissionParam configured world users e p with
    | none => tail
    | some (a, ds) => (a :: tail.1, ds ++ tail.2)

/-- `checkEmissionThresholds(emission, users)`: runs the parameter loop and
returns the saved document (its `alerts` array extended by every pushed alert,
with no deduplication against entries already present) together with all
dispatch batches issued. -/
def checkEmissionThresholds (configured : Bool) (world : String → GatewayResponse)
    (e : Emission) (users : List User) : Emission × List EmissionDispatch :=
  let out := processEmissionParams configured world users e emissionParamNames
  ({ e with alerts := e.alerts ++ out.1 }, out.2)

/-- A `{min, max}` threshold pair of the Maintenance schema (each side has a
schema default, so both are always present on a hydrated document). -/
structure Range where
  min : ℚ
  max : ℚ
deriving DecidableEq, Repr

/-- `maintenance.thresholds`. -/
structure MaintThresholds where
  temperature : Range
  vibration : Range
  pressure : Range
  efficiency : Range
deriving DecidableEq, Repr

/-- `maintenance.parameters`.  `temperature`, `vibration` and `pressure` are
required by the schema; `efficiency` is optional, and the JS comparison
`undefined < min` is `false`. -/
structure MaintParameters where
  temperature : ℚ
  vibration : ℚ
  pressure : ℚ
  efficiency : Option ℚ
deriving DecidableEq, Repr

/-- One entry of `criticalIssues` in `checkMaintenanceThresholds`.  The source
stores the formatted string `` `Temperature: ${...}°C > ${...}°C` ``; the
embedding keeps the text before the colon (which is what
`issue.split(':')[0]` later extracts) and the two numbers. -/
structure MaintIssue where
  parameter : String
  value : ℚ
  bound : ℚ
deriving DecidableEq, Repr

/-- One entry pushed onto `maintenance.anomalies`: the source pushes only
`{parameter, timestamp}` (the schema's `expectedValue`/`actualValue`/
`deviation` fields are left unset, and no severity field exists at all). -/
structure MaintAnomaly where
  parameter : String
deriving DecidableEq, Repr

/-- The latest Maintenance snapshot as read by the alert service. -/
structure MaintSnapshot where
  equipmentName : String
  parameters : MaintParameters
  thresholds : MaintThresholds
  anomalies : List MaintAnomaly
deriving DecidableEq, Repr

/-- The argument of `generateAlertMessage('maintenance', ...)`: the source
passes `riskLevel: 'High'` as a literal, whatever the breach values are. -/
structure MaintMessage where
  equipment : String
  riskLevel : String
deriving DecidableEq, Repr

/-- The observable outcome of `checkMaintenanceThresholds`: the
`criticalIssues` list, the alert message composed (if any), the two
`sendAlert` batches, and the saved `anomalies` array. -/
structure MaintResult where
  issues : List MaintIssue
  message : Option MaintMessage
  dispatches : List (Channel × List AlertResult)
  anomalies : List MaintAnomaly
deriving DecidableEq, Repr

/-- The four threshold comparisons of `checkMaintenanceThresholds` in source
order: temperature/vibration/pressure against `max`, efficiency against
`min`. -/
def maintIssues (m : MaintSnapshot) : List MaintIssue :=
  (if m.parameters.temperature > m.thresholds.temperature.max then
    [MaintIssue.mk "Temperature" m.parameters.temperature m.thresholds.temperature.max]
   else []) ++
  (if m.parameters.vibration > m.thresholds.vibration.max then
    [MaintIssue.mk "Vibration" m.parameters.vibration m.thresholds.vibration.max]
   else []) ++
  (if m.parameters.pressure > m.thresholds.pressure.max then
    [MaintIssue.mk "Pressure" m.parameters.pressure m.thresholds.pressure.max]
   else []) ++
  (if jsLtOpt m.parameters.efficiency m.thresholds.efficiency.min then
    [MaintIssue.mk "Efficiency" (m.parameters.efficiency.getD 0) m.thresholds.efficiency.min]
   else [])

/-- `checkMaintenanceThresholds(maintenance, users)`: when `criticalIssues`
is non-empty, composes one message with the hard-coded risk level `'High'`,
sends it to the SMS opt-ins and the WhatsApp opt-ins (both batches issued
unconditionally here), and appends one anomaly per issue.  No per-issue
severity is computed and no `* 1.2` multiplier appears in this function. -/
def checkMaintenanceThresholds (configured : Bool) (world : String → GatewayResponse)
    (m : MaintSnapshot) (users : List User) : MaintResult :=
  let criticalIssues := maintIssues m
  if criticalIssues.length > 0 then
    let message := "maintenance alert"
    let smsUsers := users.filter fun u => u.notifications.sms
    let waUsers := users.filter fun u => u.notifications.whatsapp
    { issues := criticalIssues
      message := some { equipment := m.equipmentName, riskLevel := "High" }
      dispatches :=
        [(Channel.sms, sendAlert configured world smsUsers message Channel.sms),
         (Channel.whatsapp, sendAlert configured world waUsers message Channel.whatsapp)]
      anomalies := m.anomalies ++ criticalIssues.map fun i => ⟨i.parameter⟩ }
  else
    { issues := [], message := none, dispatches := [], anomalies := m.anomalies }

/-- The fallible steps of one `checkThresholds` cycle.  Each `Except` value is
the behaviour of one awaited operation: the five store/directory reads, and
the per-domain check-and-dispatch bodies (whose own awaited saves and sends
may reject).  `Unit` results suffice for the control-flow claims. -/
structure CycleOps where
  fetchEmission : Except String (Option Unit)
  fetchMaintenance : Except String (Option Unit)
  fetchLoad : Except String (Option Unit)
  fetchAsh : Except String (Option Unit)
  fetchUsers : Except String Unit
  emissionStep : Except String Unit
  maintenanceStep : Except String Unit
  loadStep : Except String Unit
  ashStep : Except String Unit

/-- The body of the `try` block of `checkThresholds`: the five reads in source
order, then each domain check, run only when its latest document exists.  Any
rejection aborts the remainder of the body and propagates. -/
def checkThresholdsBody (ops : CycleOps) : Except String Unit := do
  let latestEmission ← ops.fetchEmission
  let latestMaintenance ← ops.fetchMaintenance
  let latestLoad ← ops.fetchLoad
  let latestAsh ← ops.fetchAsh
  let _ ← ops.fetchUsers
  let _ ← if latestEmission.isSome then ops.emissionStep else pure ()
  let _ ← if latestMaintenance.isSome then ops.maintenanceStep else pure ()
  let _ ← if latestLoad.isSome then ops.loadStep else pure ()
  if latestAsh.isSome then ops.ashStep else pure ()

/-- How one cycle ended: completed, or failed and logged by the catch. -/
inductive CycleLog where
  | completed
  | failedLogged (err : String)
deriving DecidableEq, Repr

/-- `checkThresholds()` with its surrounding `try { ... } catch (error)
{ console.error(...) }`: a rejection of any step is caught and logged, and the
function itself resolves — the `Except` layer of the result records whether an
exception escapes to the caller. -/
def checkThresholds (ops : CycleOps) : Except String CycleLog :=
  match checkThresholdsBody ops with
  | .ok _ => .ok .completed
  | .error e => .ok (.failedLogged e)

/-- The `cron.schedule` callback in server.js:
`try { await generateMockData(); await checkThresholds(); } catch (error)
{ console.error("Cron job error:", error); }`.  `gen` is the behaviour of the
awaited `generateMockData()` call. -/
def cronCallback (gen : Except String Unit) (ops : CycleOps) : Except String CycleLog :=
  match (do let _ ← gen; checkThresholds ops : Except String CycleLog) with
  | .ok l => .ok l
  | .error e => .ok (.failedLogged e)

/-- The scheduler state observable for overlap claims: how many cycle
executions are currently in flight, and how many snapshot reads have been
issued in total.  node-cron invokes the callback on every schedule fire and
does not await a previous async invocation; the callback body contains no
check of any running/idle flag before starting
`generateMockData(); checkThresholds()`. -/
structure SchedState where
  running : Nat
  snapshotReads : Nat
deriving DecidableEq, Repr

/-- The effect of one timer fire on the scheduler state: a new cycle starts
unconditionally (regardless of `running`), and its `checkThresholds` issues a
fresh round of latest-snapshot reads. -/
def cronTickFire (s : SchedState) : SchedState :=
  { running := s.running + 1, snapshotReads := s.snapshotReads + 1 }

/-- The summary object of `POST /api/notifications/send-sms`:
`{attempted: users.length, successful: results.filter(r => r.success).length,
failed: results.filter(r => !r.success).length}`. -/
structure SmsSummary where
  attempted : Nat
  successful : Nat
  failed : Nat
deriving DecidableEq, Repr

/-- The dispatch and summary portion of the `POST /send-sms` handler, given
the users returned by the eligibility query
(`isActive: true, 'notifications.sms': true`). -/
def sendSmsSummary (configured : Bool) (world : String → GatewayResponse)
    (users : List User) (message : String) : SmsSummary :=
  let results := sendAlert configured world users message Channel.sms
  { attempted := users.length
    successful := (results.filter fun r => r.success).length
    failed := (results.filter fun r => !r.success).length }

/-- Count of results that were live successes (resolved and not mocked). -/
def liveSucceededCount (results : List AlertResult) : Nat :=
  (results.filter fun r => r.success && !r.mock).length

/-- Count of results that were mocked (simulated) deliveries. -/
def simulatedCount (results : List AlertResult) : Nat :=
  (results.filter fun r => r.mock).length

/-- Count of results that recorded a failure. -/
def failedCount (results : List AlertResult) : Nat :=
  (results.filter fun r => !r.success).length

/-! ### Concrete fixtures used by witnesses and counterexamples -/

/-- A network oracle whose every call resolves. -/
def okWorld : String → GatewayResponse := fun _ => GatewayResponse.ok "SM123" "queued"

/-- A user opted into both channels, with a phone. -/
def bothUser : User :=
  { id := 1, name := "Asha", phone := some "+911111111111",
    notifications := { sms := true, whatsapp := true }, isActive := true }

/-- A user opted into SMS only, with a phone. -/
def smsUser : User :=
  { id := 2, name := "Ravi", phone := some "+912222222222",
    notifications := { sms := true, whatsapp := false }, isActive := true }

/-- An active user opted into SMS whose record has no phone number. -/
def phonelessUser : User :=
  { id := 3, name := "Meera", phone := none,
    notifications := { sms := true, whatsapp := false }, isActive := true }

/-- An emission snapshot whose `sox` reading is `v` against the default
threshold 200, with every other parameter within its threshold. -/
def soxSnapshot (v : ℚ) : Emission :=
  { sox := ⟨some v, "mg/Nm3", 200⟩
    nox := ⟨some 180, "mg/Nm3", 300⟩
    co2 := ⟨some 900, "kg/MWh", 950⟩
    pm := ⟨some 20, "mg/Nm3", 30⟩
    co := ⟨some 50, "mg/Nm3", 100⟩
    location := "Main Stack"
    alerts := [] }

/-- The `soxSnapshot 260` after a prior evaluation already annotated the `sox`
violation on it. -/
def annotatedSoxSnapshot : Emission :=
  { soxSnapshot 260 with
    alerts := [{ parameter := "sox", value := 260, threshold := 200,
                 unit := "mg/Nm3", severity := "High" }] }

/-- An emission snapshot whose `nox` reading is absent (its `value` field is
`undefined` on the hydrated document), with `sox` breaching. -/
def noNoxSnapshot : Emission :=
  { soxSnapshot 260 with nox := ⟨none, "mg/Nm3", 300⟩ }

/-- A maintenance snapshot with temperature 600 against the default max 550
and every other parameter within bounds. -/
def boilerSnapshot600 : MaintSnapshot :=
  { equipmentName := "Boiler-1"
    parameters := { temperature := 600, vibration := 2, pressure := 150,
                    efficiency := some 92 }
    thresholds := { temperature := ⟨0, 550⟩, vibration := ⟨0, (4.5 : ℚ)⟩,
                    pressure := ⟨0, 180⟩, efficiency := ⟨85, 100⟩ }
    anomalies := [] }

/-- The channels over which a given user was targeted in a list of dispatch
batches: the channel of every batch whose recipient list contains the user. -/
def channelsUsedFor (dispatches : List EmissionDispatch) (u : User) : List Channel :=
  (dispatches.filter fun d => d.recipients.contains u).map fun d => d.channel

/-- All channels a user has opted into. -/
def optedChannels (u : User) : List Channel :=
  (if u.notifications.sms then [Channel.sms] else []) ++
    (if u.notifications.whatsapp then [Channel.whatsapp] else [])

/-! ### Shared helper lemmas -/

/-- A `filterMap` whose function is an `if ... then some ... else none`
is a `map` over a `filter`. -/
theorem filterMap_ite_eq_map_filter {α β : Type} (p : α → Bool) (f : α → β)
    (l : List α) :
    (l.filterMap fun a => if p a then some (f a) else none) =
      (l.filter p).map f := by
  induction l with
  | nil => rfl
  | cons a l ih =>
    by_cases h : p a <;> simp [List.filterMap_cons, List.filter_cons, h, ih]

/-- The two complementary filters of a list partition its length. -/
theorem length_filter_add_length_filter_not {α : Type} (p : α → Bool)
    (l : List α) :
    (l.filter p).length + (l.filter fun a => !p a).length = l.length := by
  induction l with
  | nil => rfl
  | cons a l ih =>
    by_cases h : p a <;>
      simp [List.filter_cons, h, ← ih] <;> omega

/-- `sendAlert` is exactly the per-user attempt map over the eligible users. -/
theorem sendAlert_eq_map_filter (configured : Bool)
    (world : String → GatewayResponse) (users : List User)
    (message : String) (ty : Channel) :
    sendAlert configured world users message ty =
      (users.filter (eligibleFor ty)).map
        (alertAttempt configured world message ty) := by
  simpa [sendAlert] using
    filterMap_ite_eq_map_filter (eligibleFor ty)
      (alertAttempt configured world message ty) users

/-- Every attempt record with `mock = true` also has `success = true`
(the mocked result is a success; live results have `mock = false`). -/
theorem alertAttempt_mock_success (configured : Bool)
    (world : String → GatewayResponse) (message : String) (ty : Channel)
    (u : User) :
    (alertAttempt configured world message ty u).mock = true →
      (alertAttempt configured world message ty u).success = true := by
  cases ty <;>
    simp only [alertAttempt, sendSMS, sendWhatsApp] <;>
    cases configured <;>
    cases world (u.phone.getD "") <;>
    simp [mockSendResult, liveSendResult, failedSendResult]

/-- On a list of attempt records where `mock` implies `success`, the count of
successes splits into live successes and simulated ones. -/
theorem successCount_split (results : List AlertResult)
    (h : ∀ r ∈ results, r.mock = true → r.success = true) :
    (results.filter fun r => r.success).length =
      liveSucceededCount results + simulatedCount results := by
  induction results with
  | nil => rfl
  | cons r rs ih =>
    have hr := h r (List.mem_cons_self r rs)
    have hrs : ∀ x ∈ rs, x.mock = true → x.success = true :=
      fun x hx => h x (List.mem_cons_of_mem r hx)
    have ihx := ih hrs
    unfold liveSucceededCount simulatedCount at ihx ⊢
    cases hm : r.mock with
    | true =>
      have hs := hr hm
      simp [List.filter_cons, hs, hm, ihx]
      omega
    | false =>
      cases hs : r.success with
      | true => simp [List.filter_cons, hs, hm, ihx]; omega
      | false => simp [List.filter_cons, hs, hm, ihx]

/-- `Emission.get` reads only the parameter fields: updating `alerts` does not
change it. -/
theorem Emission.get_set_alerts (e : Emission) (x : List EmissionAlert)
    (p : String) :
    Emission.get { e with alerts := x } p = e.get p := by
  unfold Emission.get
  rfl

/-- `checkOneEmissionParam` reads the snapshot only through `Emission.get`. -/
theorem checkOneEmissionParam_set_alerts (configured : Bool)
    (world : String → GatewayResponse) (users : List User) (e : Emission)
    (x : List EmissionAlert) (p : String) :
    checkOneEmissionParam configured world users { e with alerts := x } p =
      checkOneEmissionParam configured world users e p := by
  unfold checkOneEmissionParam
  rw [Emission.get_set_alerts]

/-- The whole parameter loop is insensitive to the `alerts` annotation list. -/
theorem processEmissionParams_set_alerts (configured : Bool)
    (world : String → GatewayResponse) (users : List User) (e : Emission)
    (x : List EmissionAlert) (ps : List String) :
    processEmissionParams configured world users { e with alerts := x } ps =
      processEmissionParams configured world users e ps := by
  induction ps with
  | nil => rfl
  | cons p rest ih =>
    unfold processEmissionParams
    rw [checkOneEmissionParam_set_alerts, ih]

/-- Every alert produced by the loop names one of the processed parameters. -/
theorem processEmissionParams_param_mem (configured : Bool)
    (world : String → GatewayResponse) (users : List User) (e : Emission)
    (ps : List String) :
    ∀ a ∈ (processEmissionParams configured world users e ps).1,
      a.parameter ∈ ps := by
  induction ps with
  | nil => intro a ha; simp [processEmissionParams] at ha
  | cons p rest ih =>
    intro a ha
    unfold processEmissionParams at ha
    cases hc : checkOneEmissionParam configured world users e p with
    | none =>
      rw [hc] at ha
      exact List.mem_cons_of_mem p (ih a ha)
    | some out =>
      obtain ⟨a0, ds0⟩ := out
      rw [hc] at ha
      rcases List.mem_cons.mp ha with h | h
      · subst h
        have hp : a.parameter = p := by
          cases hv : (e.get p).value with
          | none => simp [checkOneEmissionParam, hv] at hc
          | some v =>
            simp only [checkOneEmissionParam, hv] at hc
            by_cases hgt : v > (e.get p).threshold
            · rw [if_pos hgt] at hc
              injection hc with h2
              injection h2 with h3 h4
              rw [← h3]
            · rw [if_neg hgt] at hc
              simp at hc
        rw [hp]
        exact List.mem_cons_self p rest
      · exact List.mem_cons_of_mem p (ih a h)

/-- A parameter whose check yields nothing can be removed from the loop's
parameter list without changing the loop's result. -/
theorem processEmissionParams_skip_none (configured : Bool)
    (world : String → GatewayResponse) (users : List User) (e : Emission)
    (p : String)
    (hp : checkOneEmissionParam configured world users e p = none) :
    ∀ ps : List String, processEmissionParams configured world users e ps =
      processEmissionParams configured world users e (ps.erase p) := by
  intro ps
  induction ps with
  | nil => rfl
  | cons q rest ih =>
    by_cases hq : q = p
    · subst hq
      rw [List.erase_cons_head]
      simp only [processEmissionParams, hp]
    · rw [List.erase_cons_tail (by simpa using hq)]
      unfold processEmissionParams
      rw [ih]

/-- On a breaching parameter, `checkOneEmissionParam` issues exactly the SMS
batch (when some user is opted into SMS) and the WhatsApp batch (when some
user is opted into WhatsApp), in that order. -/
theorem checkOneEmissionParam_dispatches (configured : Bool)
    (world : String → GatewayResponse) (users : List User) (e : Emission)
    (p : String) (v : ℚ) (hv : (e.get p).value = some v)
    (hgt : v > (e.get p).threshold) :
    ∃ a, checkOneEmissionParam configured world users e p = some (a,
      (if (users.filter fun x => x.notifications.sms).length > 0 then
        [EmissionDispatch.mk p Channel.sms (users.filter fun x => x.notifications.sms)
          (sendAlert configured world (users.filter fun x => x.notifications.sms)
            (p.toUpper ++ " exceeded threshold") Channel.sms)] else []) ++
      (if (users.filter fun x => x.notifications.whatsapp).length > 0 then
        [EmissionDispatch.mk p Channel.whatsapp (users.filter fun x => x.notifications.whatsapp)
          (sendAlert configured world (users.filter fun x => x.notifications.whatsapp)
            (p.toUpper ++ " exceeded threshold") Channel.whatsapp)] else [])) := by
  refine ⟨{ parameter := p, value := v, threshold := (e.get p).threshold,
            unit := (e.get p).unit,
            severity := if v > (e.get p).threshold * (1.2 : ℚ) then "High"
                        else "Medium" }, ?_⟩
  simp only [checkOneEmissionParam, hv, if_pos hgt]

/-- Filtering one conditional dispatch batch for the batches containing `u`
keeps its channel exactly when `u` satisfies the batch's opt-in filter. -/
theorem batch_channels_for_user (u : User) (users : List User)
    (pred : User → Bool) (hu : u ∈ users) (p : String) (ch : Channel)
    (results : List AlertResult) :
    ((if (users.filter pred).length > 0 then
        [EmissionDispatch.mk p ch (users.filter pred) results] else []).filter
      fun d => d.recipients.contains u).map (fun d => d.channel) =
      if pred u then [ch] else [] := by
  by_cases hp : pred u
  · have hmem : u ∈ users.filter pred := List.mem_filter.mpr ⟨hu, hp⟩
    have hlen : (users.filter pred).length > 0 :=
      List.length_pos.mpr (List.ne_nil_of_mem hmem)
    have hcon : (users.filter pred).contains u = true :=
      List.elem_eq_true_of_mem hmem
    simp [hlen, hcon, hp, hu, List.filter_cons]
  · have hnm : u ∉ users.filter pred := by
      intro hmem
      exact hp (List.mem_filter.mp hmem).2
    have hcon : (users.filter pred).contains u = false := by
      by_contra hne
      exact hnm (List.mem_of_elem_eq_true (Bool.of_not_eq_false hne))
    by_cases hl : (users.filter pred).length > 0 <;>
      simp [hl, hcon, hp, List.filter_cons]

/-! ### Claim theorems -/

/-- C2: the emission classifier raises a violation for a parameter exactly
when `value > threshold` (a violation is raised whenever the value breaches,
and never otherwise); the raised alert's severity is `'High'` (the spec's
Critical) exactly when `value > threshold * 1.2` and `'Medium'` (the spec's
Warning) exactly when `threshold < value ≤ threshold * 1.2`; the snapshot with
`sox = 260` against threshold `200` yields exactly one violation, of severity
`'High'` (Critical), since `260 > 240`; and the Warning band is inhabited:
`sox = 210` against `200` yields exactly one violation, of severity
`'Medium'`, since `200 < 210 ≤ 240`. -/
theorem emission_severity_rule :
    (∀ (configured : Bool) (world : String → GatewayResponse) (users : List User)
        (e : Emission) (p : String) (v : ℚ),
      (e.get p).value = some v →
        ((∃ a ds, checkOneEmissionParam configured world users e p = some (a, ds)) ↔
          v > (e.get p).threshold) ∧
        (∀ (a : EmissionAlert) (ds : List EmissionDispatch),
          checkOneEmissionParam configured world users e p = some (a, ds) →
            a.value = v ∧
            a.threshold = (e.get p).threshold ∧
            (a.severity = "High" ↔ v > (e.get p).threshold * (1.2 : ℚ)) ∧
            (a.severity = "Medium" ↔
              ((e.get p).threshold < v ∧ v ≤ (e.get p).threshold * (1.2 : ℚ))))) ∧
    ((checkEmissionThresholds false okWorld (soxSnapshot 260) [smsUser]).1.alerts.map
      fun a => (a.parameter, a.severity)) = [("sox", "High")] ∧
    ((checkEmissionThresholds false okWorld (soxSnapshot 210) [smsUser]).1.alerts.map
      fun a => (a.parameter, a.severity)) = [("sox", "Medium")] := by
  refine ⟨?_, ?_, ?_⟩
  · intro configured world users e p v hv
    constructor
    · constructor
      · rintro ⟨a, ds, hc⟩
        simp only [checkOneEmissionParam, hv] at hc
        by_cases hgt : v > (e.get p).threshold
        · exact hgt
        · rw [if_neg hgt] at hc
          simp at hc
      · intro hgt
        exact ⟨_, _, by simp only [checkOneEmissionParam, hv, if_pos hgt]; rfl⟩
    · intro a ds hc
      simp only [checkOneEmissionParam, hv] at hc
      by_cases hgt : v > (e.get p).threshold
      · rw [if_pos hgt] at hc
        injection hc with h2
        injection h2 with h3 h4
        subst h3
        refine ⟨rfl, rfl, ?_, ?_⟩
        · by_cases h12 : v > (e.get p).threshold * (1.2 : ℚ) <;> simp [h12]
        · by_cases h12 : v > (e.get p).threshold * (1.2 : ℚ)
          · have : ¬ v ≤ (e.get p).threshold * (1.2 : ℚ) := not_le.mpr h12
            simp [h12, this]
          · exact iff_of_true (by simp [h12]) ⟨hgt, not_lt.mp h12⟩
      · rw [if_neg hgt] at hc
        simp at hc
  · norm_num [checkEmissionThresholds, processEmissionParams, checkOneEmissionParam,
      emissionParamNames, Emission.get, soxSnapshot, sendAlert, eligibleFor,
      alertAttempt, smsUser, okWorld, jsTruthyStr, sendSMS, mockSendResult]
  · norm_num [checkEmissionThresholds, processEmissionParams, checkOneEmissionParam,
      emissionParamNames, Emission.get, soxSnapshot, sendAlert, eligibleFor,
      alertAttempt, smsUser, okWorld, jsTruthyStr, sendSMS, mockSendResult]

/-- C2 witness: at the Warning-band value `sox = 210` the raise-iff-breach
equivalence of the severity theorem holds concretely: a violation is raised
because `210 > 200`. -/
theorem emission_severity_rule_witness :
    ((soxSnapshot 210).get "sox").value = some 210 ∧
    ((∃ a ds,
      checkOneEmissionParam false okWorld [smsUser] (soxSnapshot 210) "sox" =
        some (a, ds)) ↔
      (210 : ℚ) > ((soxSnapshot 210).get "sox").threshold) :=
  ⟨rfl,
   (emission_severity_rule.1 false okWorld [smsUser] (soxSnapshot 210) "sox" 210 rfl).1⟩

/-- C1 counterexample: re-running the emission check on a snapshot already
annotated with the `sox` violation, without new data, appends a second `sox`
alert entry and issues another dispatch — refuting the at-most-once claim. -/
theorem emission_reraise_counterexample :
    ((checkEmissionThresholds false okWorld annotatedSoxSnapshot [smsUser]).1.alerts.countP
      fun a => a.parameter == "sox") = 2 ∧
    (checkEmissionThresholds false okWorld annotatedSoxSnapshot [smsUser]).2.length = 1 := by
  constructor <;>
    norm_num [checkEmissionThresholds, processEmissionParams, checkOneEmissionParam,
      emissionParamNames, Emission.get, annotatedSoxSnapshot, soxSnapshot, sendAlert,
      eligibleFor, alertAttempt, smsUser, okWorld, jsTruthyStr, sendSMS,
      mockSendResult, List.countP_cons]

/-- C1 amended: re-evaluating the snapshot saved by a previous evaluation,
with no new data, appends every currently-breaching parameter's alert a second
time and repeats every dispatch: the check has no deduplication against the
alerts already annotated on the snapshot. -/
theorem emission_reraise_duplicates (configured : Bool)
    (world : String → GatewayResponse) (e : Emission) (users : List User) :
    (checkEmissionThresholds configured world
        (checkEmissionThresholds configured world e users).1 users).1.alerts =
      e.alerts ++ (processEmissionParams configured world users e emissionParamNames).1 ++
        (processEmissionParams configured world users e emissionParamNames).1 ∧
    (checkEmissionThresholds configured world
        (checkEmissionThresholds configured world e users).1 users).2 =
      (checkEmissionThresholds configured world e users).2 := by
  unfold checkEmissionThresholds
  constructor
  · simp [processEmissionParams_set_alerts, List.append_assoc]
  · simp [processEmissionParams_set_alerts]

/-- C3: the channel dispatcher's send is total over all gateway behaviours:
with no credentials it returns the mocked success and makes zero network
calls, whatever the network would have answered; with credentials it makes
exactly one call, returning success on a resolved call and a `Failed`
result carrying the error reason on a rejected call — no case re-throws. -/
theorem dispatcher_outcome_classification (resp : GatewayResponse)
    (dest message sid st e : String) :
    sendSMS false resp dest message = (mockSendResult, 0) ∧
    sendWhatsApp false resp dest message = (mockSendResult, 0) ∧
    sendSMS true (GatewayResponse.ok sid st) dest message = (liveSendResult sid st, 1) ∧
    sendWhatsApp true (GatewayResponse.ok sid st) dest message = (liveSendResult sid st, 1) ∧
    sendSMS true (GatewayResponse.err e) dest message = (failedSendResult e, 1) ∧
    sendWhatsApp true (GatewayResponse.err e) dest message = (failedSendResult e, 1) :=
  ⟨rfl, rfl, rfl, rfl, rfl, rfl⟩

/-- C4: whatever any step of the cycle does — any fetch or any domain
check-and-dispatch step may reject — `checkThresholds` resolves (its catch
logs the failure), and the cron callback resolves too: no exception reaches
the scheduler, so the next tick is unaffected. -/
theorem cycle_errors_never_propagate (gen : Except String Unit) (ops : CycleOps) :
    (checkThresholds ops).isOk = true ∧ (cronCallback gen ops).isOk = true := by
  constructor
  · unfold checkThresholds
    cases checkThresholdsBody ops <;> rfl
  · unfold cronCallback checkThresholds
    cases gen with
    | error e => rfl
    | ok u => cases checkThresholdsBody ops <;> rfl

/-- C5 counterexample: with one cycle still in flight, a timer fire is not a
no-op: the scheduler state changes and a further snapshot read is issued. -/
theorem scheduler_tick_skip_counterexample :
    cronTickFire ⟨1, 5⟩ ≠ ⟨1, 5⟩ ∧ (cronTickFire ⟨1, 5⟩).snapshotReads = 6 := by
  decide

/-- C5 amended: every timer fire starts a new cycle unconditionally — the
cron callback has no Idle/Running guard — so `k` fires with no completions
leave `k` additional cycles in flight and `k` additional snapshot reads,
however many cycles were already running. -/
theorem scheduler_tick_always_starts_cycle (k : Nat) (s : SchedState) :
    (cronTickFire^[k] s).running = s.running + k ∧
    (cronTickFire^[k] s).snapshotReads = s.snapshotReads + k := by
  induction k with
  | zero => simp
  | succ n ih =>
    constructor
    · rw [Function.iterate_succ_apply']
      show (cronTickFire^[n] s).running + 1 = s.running + (n + 1)
      rw [ih.1]
      omega
    · rw [Function.iterate_succ_apply']
      show (cronTickFire^[n] s).snapshotReads + 1 = s.snapshotReads + (n + 1)
      rw [ih.2]
      omega

/-- C6 counterexample: for a batch consisting of one active SMS-opted user
with no phone number, the route summary reports `attempted = 1` while zero
attempts succeeded, failed or were simulated, so
`attempted = succeeded + failed + simulated` fails. -/
theorem summary_counts_counterexample :
    (sendSmsSummary false okWorld [phonelessUser] "test").attempted = 1 ∧
    liveSucceededCount (sendAlert false okWorld [phonelessUser] "test" Channel.sms) = 0 ∧
    failedCount (sendAlert false okWorld [phonelessUser] "test" Channel.sms) = 0 ∧
    simulatedCount (sendAlert false okWorld [phonelessUser] "test" Channel.sms) = 0 ∧
    (sendSmsSummary false okWorld [phonelessUser] "test").attempted ≠
      liveSucceededCount (sendAlert false okWorld [phonelessUser] "test" Channel.sms) +
        failedCount (sendAlert false okWorld [phonelessUser] "test" Channel.sms) +
        simulatedCount (sendAlert false okWorld [phonelessUser] "test" Channel.sms) := by
  refine ⟨rfl, rfl, rfl, rfl, ?_⟩
  simp [sendSmsSummary, sendAlert, eligibleFor, phonelessUser, jsTruthyStr,
    liveSucceededCount, failedCount, simulatedCount]

/-- C6 amended: the summary's `attempted` is the eligible-user count, which
equals `successful + failed` plus the number of users skipped for lacking a
phone or the opt-in; and `successful` counts simulated (mocked) deliveries
together with live successes — the route reports no separate simulated
count. -/
theorem summary_counts_amended (configured : Bool)
    (world : String → GatewayResponse) (users : List User) (message : String) :
    (sendSmsSummary configured world users message).attempted =
      (sendSmsSummary configured world users message).successful +
        (sendSmsSummary configured world users message).failed +
        (users.filter fun u => !eligibleFor Channel.sms u).length ∧
    (sendSmsSummary configured world users message).successful =
      liveSucceededCount (sendAlert configured world users message Channel.sms) +
        simulatedCount (sendAlert configured world users message Channel.sms) := by
  have hmock : ∀ r ∈ sendAlert configured world users message Channel.sms,
      r.mock = true → r.success = true := by
    intro r hr
    rw [sendAlert_eq_map_filter] at hr
    obtain ⟨u, _, rfl⟩ := List.mem_map.mp hr
    exact alertAttempt_mock_success configured world message Channel.sms u
  have hsplit := successCount_split _ hmock
  have hlen : (sendAlert configured world users message Channel.sms).length =
      (users.filter (eligibleFor Channel.sms)).length := by
    rw [sendAlert_eq_map_filter, List.length_map]
  have hpart := length_filter_add_length_filter_not (eligibleFor Channel.sms) users
  have hpart2 := length_filter_add_length_filter_not (fun r => r.success)
    (sendAlert configured world users message Channel.sms)
  constructor
  · unfold sendSmsSummary
    simp only
    omega
  · unfold sendSmsSummary
    simp only
    omega

/-- C7 counterexample: a recipient opted into both channels receives a
Warning-level (`'Medium'`) violation over both channels, not only over a
single default channel. -/
theorem warning_channels_counterexample :
    (channelsUsedFor
        (checkEmissionThresholds false okWorld (soxSnapshot 210) [bothUser]).2
        bothUser).length = 2 ∧
    ((checkEmissionThresholds false okWorld (soxSnapshot 210) [bothUser]).1.alerts.map
      fun a => a.severity) = ["Medium"] := by
  constructor <;>
    norm_num [channelsUsedFor, checkEmissionThresholds, processEmissionParams,
      checkOneEmissionParam, emissionParamNames, Emission.get, soxSnapshot,
      sendAlert, eligibleFor, alertAttempt, bothUser, okWorld, jsTruthyStr,
      sendSMS, sendWhatsApp, mockSendResult, List.filter_cons, List.contains_cons]

/-- C7 amended: recipient targeting is independent of severity — for any
breaching value (Warning-level or Critical-level alike) the channels used for
a recipient are exactly all the channels they opted into; in particular the
Critical channel set contains the Warning channel set (they are equal). -/
theorem channels_severity_independent (configured : Bool)
    (world : String → GatewayResponse) (users : List User) (u : User)
    (vW vC : ℚ) (hu : u ∈ users) (hW : vW > 200) (hC : vC > 200) :
    channelsUsedFor
        (checkEmissionThresholds configured world (soxSnapshot vW) users).2 u =
      optedChannels u ∧
    channelsUsedFor
        (checkEmissionThresholds configured world (soxSnapshot vC) users).2 u =
      optedChannels u ∧
    ∀ ch ∈ channelsUsedFor
        (checkEmissionThresholds configured world (soxSnapshot vW) users).2 u,
      ch ∈ channelsUsedFor
        (checkEmissionThresholds configured world (soxSnapshot vC) users).2 u := by
  have key : ∀ v : ℚ, v > 200 →
      channelsUsedFor
          (checkEmissionThresholds configured world (soxSnapshot v) users).2 u =
        optedChannels u := by
    intro v hv
    have hval : ((soxSnapshot v).get "sox").value = some v := rfl
    have hgt : v > ((soxSnapshot v).get "sox").threshold := hv
    obtain ⟨a, ha⟩ :=
      checkOneEmissionParam_dispatches configured world users (soxSnapshot v)
        "sox" v hval hgt
    have hnox : checkOneEmissionParam configured world users (soxSnapshot v) "nox" = none := by
      norm_num [checkOneEmissionParam, Emission.get, soxSnapshot]
    have hco2 : checkOneEmissionParam configured world users (soxSnapshot v) "co2" = none := by
      norm_num [checkOneEmissionParam, Emission.get, soxSnapshot]
    have hpm : checkOneEmissionParam configured world users (soxSnapshot v) "pm" = none := by
      norm_num [checkOneEmissionParam, Emission.get, soxSnapshot]
    have hco : checkOneEmissionParam configured world users (soxSnapshot v) "co" = none := by
      norm_num [checkOneEmissionParam, Emission.get, soxSnapshot]
    have hout : (checkEmissionThresholds configured world (soxSnapshot v) users).2 =
        (processEmissionParams configured world users (soxSnapshot v) emissionParamNames).2 := rfl
    rw [hout]
    simp only [emissionParamNames, processEmissionParams, ha, hnox, hco2, hpm, hco]
    unfold channelsUsedFor
    rw [List.append_nil, List.filter_append, List.map_append]
    rw [batch_channels_for_user u users _ hu, batch_channels_for_user u users _ hu]
    rfl
  exact ⟨key vW hW, key vC hC, by rw [key vW hW, key vC hC]; intro ch hch; exact hch⟩

/-- C7 witness: for the both-opted user and the concrete Warning-level and
Critical-level values 210 and 260, the channel sets are both all opted-in
channels. -/
theorem channels_severity_independent_witness :
    bothUser ∈ [bothUser] ∧ (210 : ℚ) > 200 ∧ (260 : ℚ) > 200 ∧
    channelsUsedFor
        (checkEmissionThresholds false okWorld (soxSnapshot 210) [bothUser]).2
        bothUser = optedChannels bothUser :=
  ⟨List.mem_singleton.mpr rfl, by norm_num, by norm_num,
   (channels_severity_independent false okWorld [bothUser] bothUser 210 260
      (List.mem_singleton.mpr rfl) (by norm_num) (by norm_num)).1⟩

/-- C8 counterexample: on the equipment snapshot with temperature 600 against
max 550, the checker reports exactly one issue, but the alert it dispatches
carries the hard-coded risk level `'High'`, not Warning: no `×1.2` severity
rule exists in the maintenance path. -/
theorem maintenance_severity_counterexample :
    (checkMaintenanceThresholds false okWorld boilerSnapshot600 [smsUser]).issues.length = 1 ∧
    (checkMaintenanceThresholds false okWorld boilerSnapshot600 [smsUser]).message =
      some { equipment := "Boiler-1", riskLevel := "High" } ∧
    ("High" : String) ≠ "Warning" := by
  refine ⟨?_, ?_, by decide⟩ <;>
    norm_num [checkMaintenanceThresholds, maintIssues, boilerSnapshot600, jsLtOpt]

/-- C8 amended: the equipment snapshot with temperature 600 against max 550
produces exactly one breach (`Temperature: 600 > 550`), and whenever any
breach exists the maintenance checker's alert message carries the constant
risk level `'High'` — it assigns no Warning/Critical severity and applies no
1.2 multiplier. -/
theorem maintenance_risklevel_high :
    (∀ (configured : Bool) (world : String → GatewayResponse)
        (m : MaintSnapshot) (users : List User), maintIssues m ≠ [] →
      (checkMaintenanceThresholds configured world m users).message =
        some { equipment := m.equipmentName, riskLevel := "High" } ∧
      (checkMaintenanceThresholds configured world m users).issues = maintIssues m) ∧
    maintIssues boilerSnapshot600 =
      [{ parameter := "Temperature", value := 600, bound := 550 }] := by
  constructor
  · intro configured world m users h
    have hlen : (maintIssues m).length > 0 := List.length_pos.mpr h
    unfold checkMaintenanceThresholds
    rw [if_pos hlen]
    exact ⟨rfl, rfl⟩
  · norm_num [maintIssues, boilerSnapshot600, jsLtOpt]

/-- C8 witness: the amended theorem applied at the concrete snapshot. -/
theorem maintenance_risklevel_high_witness :
    maintIssues boilerSnapshot600 ≠ [] ∧
    (checkMaintenanceThresholds false okWorld boilerSnapshot600 [smsUser]).message =
      some { equipment := "Boiler-1", riskLevel := "High" } :=
  ⟨by norm_num [maintIssues, boilerSnapshot600, jsLtOpt],
   (maintenance_risklevel_high.1 false okWorld boilerSnapshot600 [smsUser]
      (by norm_num [maintIssues, boilerSnapshot600, jsLtOpt])).1⟩

/-- C9: for every required parameter `p` of the emission loop and every
snapshot on which `p`'s reading is absent (its `value` undefined on the
hydrated document), `p` is skipped: its own check reports no breach, the loop
result equals the evaluation with `p` removed from the parameter list (the
remaining parameters complete normally, unaffected), no produced alert names
`p`, and the saved snapshot's alerts are exactly the old ones plus those of
the remaining parameters. -/
theorem absent_param_skipped (configured : Bool)
    (world : String → GatewayResponse) (users : List User) (e : Emission)
    (p : String) (hp : p ∈ emissionParamNames) (h : (e.get p).value = none) :
    checkOneEmissionParam configured world users e p = none ∧
    processEmissionParams configured world users e emissionParamNames =
      processEmissionParams configured world users e (emissionParamNames.erase p) ∧
    (∀ a ∈ (processEmissionParams configured world users e emissionParamNames).1,
      a.parameter ≠ p) ∧
    (checkEmissionThresholds configured world e users).1.alerts =
      e.alerts ++
        (processEmissionParams configured world users e (emissionParamNames.erase p)).1 := by
  have hone : checkOneEmissionParam configured world users e p = none := by
    simp [checkOneEmissionParam, h]
  have h1 : processEmissionParams configured world users e emissionParamNames =
      processEmissionParams configured world users e (emissionParamNames.erase p) :=
    processEmissionParams_skip_none configured world users e p hone
      emissionParamNames
  have hnodup : emissionParamNames.Nodup := by decide
  refine ⟨hone, h1, ?_, ?_⟩
  · intro a ha hq
    rw [h1] at ha
    have hm := processEmissionParams_param_mem configured world users e _ a ha
    rw [hq] at hm
    exact ((List.Nodup.mem_erase_iff hnodup).mp hm).1 rfl
  · show ({ e with alerts := e.alerts ++
        (processEmissionParams configured world users e emissionParamNames).1 }).alerts = _
    rw [h1]

/-- C9 witness: applied at the concrete snapshot whose `nox` value is
absent. -/
theorem absent_param_skipped_witness :
    "nox" ∈ emissionParamNames ∧
    (noNoxSnapshot.get "nox").value = none ∧
    checkOneEmissionParam false okWorld [smsUser] noNoxSnapshot "nox" = none ∧
    processEmissionParams false okWorld [smsUser] noNoxSnapshot emissionParamNames =
      processEmissionParams false okWorld [smsUser] noNoxSnapshot
        (emissionParamNames.erase "nox") :=
  ⟨by decide, rfl,
   (absent_param_skipped false okWorld [smsUser] noNoxSnapshot "nox" (by decide) rfl).1,
   (absent_param_skipped false okWorld [smsUser] noNoxSnapshot "nox" (by decide) rfl).2.1⟩

/-- C10: `sendAlert` returns exactly one entry per eligible user (phone
present and opted into the requested channel), in order — skipped users
produce no entry and no attempt — and on a list containing only a phoneless
user the results list is strictly shorter than the input list. -/
theorem sendalert_skips_users (configured : Bool)
    (world : String → GatewayResponse) (users : List User) (message : String)
    (ty : Channel) :
    sendAlert configured world users message ty =
      (users.filter (eligibleFor ty)).map (alertAttempt configured world message ty) ∧
    (sendAlert configured world users message ty).length =
      (users.filter (eligibleFor ty)).length ∧
    (sendAlert false okWorld [phonelessUser] "hello" Channel.sms).length <
      ([phonelessUser] : List User).length := by
  refine ⟨sendAlert_eq_map_filter configured world users message ty, ?_, ?_⟩
  · rw [sendAlert_eq_map_filter, List.length_map]
  · simp [sendAlert, eligibleFor, phonelessUser, jsTruthyStr]

end NTPC
